import Mathlib

/-!
Verification development for the `record_api` instruction-level tracer
(`src/record_api.py`).

The development shallowly embeds the tracer's data model and operations:

* `JValue` / `JSONEncoder.process` — the serializer's normalisation and
  truncation step (`JSONEncoder.process`, lines 54-69 of the source);
* `PyValue` — the runtime values the tracer inspects, carrying exactly the
  attributes the source consults (`__self__`, the declaring module resolved
  by `inspect.getmodule(value) or inspect.getmodule(type(value))`, the
  declaring module of the value's type, and `__qualname__`/`__name__`);
* `should_trace`, `log_call`, `Stack.process` — the provenance gate, the
  record emitter and the per-operation capture step;
* `Frame`, `opcodeProcesses`, `handleOpcode`, `tracerStep`, `runEvents` —
  the opcode-event dispatch of `Tracer.__call__` and the call-event
  suppression state machine over `recorded_calls` / `ignored_code_ids`;
* `JSONEncoder.default`, `save_log`, `handleOpcodeE` — the serialisation
  pipeline with its failure behaviour (`assert module`) made explicit as
  `Except`.
-/

/-- `MAX_LENGTH = 50` (line 23). -/
def MAX_LENGTH : Nat := 50

/-- JSON-like values: the shapes `JSONEncoder.process` distinguishes with
`isinstance` (str, list, dict, tuple) plus the remaining JSON scalars that
fall through unchanged. Python `str` keeps its Lean `String` representation;
dicts are modelled as entry lists in insertion order (key collisions after
truncation, where a Python dict comprehension keeps the last entry, are not
re-deduplicated here; the claims do not turn on that corner). -/
inductive JValue where
  | null
  | bool (b : Bool)
  | num (n : Int)
  | str (s : String)
  | list (xs : List JValue)
  | dict (entries : List (JValue × JValue))
  | tuple (xs : List JValue)

namespace JSONEncoder

mutual
/-- `JSONEncoder.process` (lines 54-69): truncates strings to `MAX_LENGTH`
characters, truncates lists and dict item lists to `MAX_LENGTH` entries while
processing each retained element, re-expresses a tuple as the tagged dict
`{"__tp": "tuple", "value": process(list(o))}` (the list branch is inlined
there), and returns every other value unchanged. `processTake n` fuses
`o[:MAX_LENGTH]` with the per-element recursion of the comprehension
`[self.process(v) for v in o[:MAX_LENGTH]]`. -/
def process : JValue → JValue
  | .str s => .str (s.take MAX_LENGTH)
  | .list xs => .list (processTake MAX_LENGTH xs)
  | .dict es => .dict (processEntries MAX_LENGTH es)
  | .tuple xs =>
      .dict [(.str "__tp", .str "tuple"), (.str "value", .list (processTake MAX_LENGTH xs))]
  | o => o
termination_by structural v => v

/-- `[self.process(v) for v in o[:n]]`. -/
def processTake : Nat → List JValue → List JValue
  | _, [] => []
  | 0, _ :: _ => []
  | n + 1, v :: vs => process v :: processTake n vs
termination_by structural n l => l

/-- `{self.process(k): self.process(v) for k, v in list(o.items())[:n]}`. -/
def processEntries : Nat → List (JValue × JValue) → List (JValue × JValue)
  | _, [] => []
  | 0, _ :: _ => []
  | n + 1, (k, v) :: es => (process k, process v) :: processEntries n es
termination_by structural n l => l
end

end JSONEncoder

/-- The runtime values the tracer inspects, as the source observes them:
  * `null` — the `Stack.NULL` sentinel returned when an operand-stack slot
    holds no object (lines 125, 173-175);
  * `prim` — a directly JSON-serialisable builtin (int, str, ...);
  * `strTuple` — a tuple of strings (the `CALL_FUNCTION_KW` names constant);
  * `pyDict` — a dict of keyword arguments (`CALL_FUNCTION_EX`);
  * `module` — a module object (`types.ModuleType`);
  * `obj cls clsModule resolvedModule name` — any other object:
    `cls`/`clsModule` are `type(o).__qualname__` and the module declaring
    `type(o)`, `resolvedModule` abstracts the result of
    `inspect.getmodule(o) or inspect.getmodule(type(o))`, and `name` is the
    object's `__qualname__`/`__name__` when it is used as a callable;
  * `builtinMethod self_ name resolvedModule` — a
    `types.BuiltinFunctionType`/`BuiltinMethodType` value with its
    `__self__`, `__name__` and resolved module (for a plain builtin function
    such as `operator.add` or `iter`, `__self__` is its module object);
  * `methodDescr cls clsModule name` — an unbound method descriptor
    (`types.MethodDescriptorType`) with its `__objclass__`'s qualname and
    declaring module; `Stack.process` produces one via
    `getattr(type(self_), fn.__name__)` on a native receiver. -/
inductive PyValue where
  | null
  | prim (j : JValue)
  | strTuple (names : List String)
  | pyDict (items : List (String × PyValue))
  | module (name : String)
  | obj (cls : String) (clsModule : Option String) (resolvedModule : Option String) (name : String)
  | builtinMethod (self_ : PyValue) (name : String) (resolvedModule : Option String)
  | methodDescr (cls : String) (clsModule : Option String) (name : String)

/-- `isinstance(v, types.ModuleType)`. -/
def isModuleVal : PyValue → Bool
  | .module _ => true
  | _ => false

/-- Abstract result of `inspect.getmodule(value) or inspect.getmodule(type(value))`:
the name of the module the lookup resolves to, or `none` when both lookups
fail. Builtin containers and scalars resolve to `builtins`; a module object
resolves to itself. -/
def getmodule : PyValue → Option String
  | .null => some "builtins"
  | .prim _ => some "builtins"
  | .strTuple _ => some "builtins"
  | .pyDict _ => some "builtins"
  | .module n => some n
  | .obj _ _ rm _ => rm
  | .builtinMethod _ _ rm => rm
  | .methodDescr _ cm _ => cm

/-- `type(v).__qualname__`. -/
def typeQualname : PyValue → String
  | .null => "object"
  | .prim _ => "object"
  | .strTuple _ => "tuple"
  | .pyDict _ => "dict"
  | .module _ => "module"
  | .obj cls _ _ _ => cls
  | .builtinMethod _ _ _ => "builtin_function_or_method"
  | .methodDescr _ _ _ => "method_descriptor"

/-- `inspect.getmodule(type(v))`: the module declaring the value's type.
Builtin types live in `builtins`; for `obj` it is the recorded `clsModule`,
which is `none` exactly when the module of the type cannot be determined. -/
def typeModule : PyValue → Option String
  | .obj _ cm _ _ => cm
  | _ => some "builtins"

/-- `getattr(fn, '__qualname__', fn.__name__)` for the callables the tracer
logs. A builtin method bound to a non-module receiver has qualname
`type(self).__qualname__ + "." + name`; a plain builtin function just its
name; a method descriptor `objclass.__qualname__ + "." + name`. -/
def pyQualname : PyValue → String
  | .builtinMethod self_ n _ => if isModuleVal self_ then n else typeQualname self_ ++ "." ++ n
  | .methodDescr cls _ n => cls ++ "." ++ n
  | .obj _ _ _ n => n
  | .module n => n
  | _ => "object"

/-- `fn.__name__` for a builtin method (used by the `getattr(type(self_), ...)`
rewrite and to state C1's record name). -/
def methodName : PyValue → String
  | .builtinMethod _ n _ => n
  | .methodDescr _ _ n => n
  | .obj _ _ _ n => n
  | .module n => n
  | _ => "object"

/-- `list(x)` for the iterables `BUILD_TUPLE_UNPACK_WITH_CALL` flattens and
`CALL_FUNCTION_EX` splats. On a non-iterable the interpreter would raise;
compiled bytecode never reaches that case and it is modelled as `[]`. -/
def listOf : PyValue → List PyValue
  | .strTuple ns => ns.map (fun n => .prim (.str n))
  | .prim (.list xs) => xs.map .prim
  | .prim (.tuple xs) => xs.map .prim
  | _ => []

/-- The keyword items of a `**kwargs` dict (`CALL_FUNCTION_EX`). -/
def kwItems : PyValue → List (String × PyValue)
  | .pyDict items => items
  | _ => []

/-- Python's `s.startswith(pre)`: `pre`'s characters are a prefix of `s`'s. -/
def pyStartsWith (s pre : String) : Bool :=
  pre.data.isPrefixOf s.data

/-- The value an operand is resolved through (lines 246-248): the receiver
`value.__self__` for a builtin method, the value itself otherwise. -/
def gateValue : PyValue → PyValue
  | .builtinMethod self_ _ _ => self_
  | v => v

/-- The per-operand body of the `should_trace` loop (lines 244-255): resolve
the declaring module of the gating value; an unresolvable operand warns and
is skipped (`false` here — it can never make the loop return `True`);
otherwise test `module.__name__.startswith(self.module)`. -/
def operandResolves (target : String) (value : PyValue) : Bool :=
  match getmodule (gateValue value) with
  | none => false
  | some m => pyStartsWith m target

/-- `Tracer.should_trace(*values)` (lines 244-255): `True` as soon as one
operand's resolved module name starts with the target prefix, `False` after
the loop otherwise (`List.any` short-circuits exactly like the early
`return True`). -/
def should_trace (target : String) (values : List PyValue) : Bool :=
  values.any (operandResolves target)

/-- Tracer state (lines 200-222): the target-module prefix, the
`recorded_calls` set of `(id(f_code), f_lasti)` call-site keys, and the
`ignored_code_ids` set of suppressed code-object identities. -/
structure TracerState where
  module : String
  recorded_calls : Finset (Nat × Nat)
  ignored_code_ids : Finset Nat

/-- A frame as the tracer observes it during one event: the identity of its
code object, `f_lasti`, the decoded `(opname, oparg)` of the instruction
about to execute (instruction decoding by `get_instruction`/`dis` is the
external Instruction Decoder; the event carries its result), `co_names`,
the live operand stack read through `get_stack.OpStack` (head = top of
stack; an absent/NULL slot is `PyValue.null`), and the caller link
`f_back`. The chain's root (`f_back = none`) stands for
`Tracer.top_level_frame`, where the caller walk of `Tracer.__call__`
stops. -/
inductive Frame where
  | mk (f_code_id : Nat) (f_lasti : Nat) (opname : String) (oparg : Nat)
       (co_names : List String) (op_stack : List PyValue) (f_back : Option Frame)

def Frame.f_code_id : Frame → Nat
  | .mk cid _ _ _ _ _ _ => cid

def Frame.f_lasti : Frame → Nat
  | .mk _ li _ _ _ _ _ => li

def Frame.opname : Frame → String
  | .mk _ _ op _ _ _ _ => op

def Frame.oparg : Frame → Nat
  | .mk _ _ _ arg _ _ _ => arg

def Frame.co_names : Frame → List String
  | .mk _ _ _ _ ns _ _ => ns

def Frame.op_stack : Frame → List PyValue
  | .mk _ _ _ _ _ st _ => st

def Frame.f_back : Frame → Option Frame
  | .mk _ _ _ _ _ _ b => b

/-- `Tracer._frame_to_key(frame)` (lines 240-242): `(id(frame.f_code), frame.f_lasti)`. -/
def frame_to_key (f : Frame) : Nat × Nat :=
  (f.f_code_id, f.f_lasti)

/-- The code-object identities the caller walk of `Tracer.__call__`
(lines 258-262) tests against `ignored_code_ids`: the frame's own and every
ancestor's, stopping before `top_level_frame` (the chain's root). -/
def Frame.walkIds : Frame → List Nat
  | .mk _ _ _ _ _ _ none => []
  | .mk cid _ _ _ _ _ (some b) => cid :: b.walkIds

/-- `stack.TOS` = `op_stack[-1]`. Reading an absent slot raises in the
source; claims about these branches are stated for frames with enough
operands, so the `.null` default is never reached there. -/
def Frame.TOS (f : Frame) : PyValue := f.op_stack.getD 0 .null

/-- `stack.TOS1` = `op_stack[-2]`. -/
def Frame.TOS1 (f : Frame) : PyValue := f.op_stack.getD 1 .null

/-- `stack.TOS2` = `op_stack[-3]`. -/
def Frame.TOS2 (f : Frame) : PyValue := f.op_stack.getD 2 .null

/-- `stack.opvalname`: `frame.f_code.co_names[oparg]` (a real instruction's
argument always indexes into the table). -/
def Frame.opvalname (f : Frame) : String := f.co_names.getD f.oparg ""

/-- `dis.cmp_op` of the targeted interpreter (CPython 3.8, also cited at
lines 373-374). -/
def cmp_op : List String :=
  ["<", "<=", "==", "!=", ">", ">=", "in", "not in", "is", "is not",
   "exception match", "BAD"]

/-- `stack.opvalcompare`: `dis.cmp_op[oparg]` (compiled comparisons always
index into the table). -/
def Frame.opvalcompare (f : Frame) : String := cmp_op.getD f.oparg "BAD"

/-- A record as handed to the serializer: the qualified function name and
the call's positional and keyword arguments. Binding the arguments against
the callable's signature (`inspect.signature(fn)` / `sig.bind`) is external
introspection; the emitter below packs them with the source's
signature-unavailable fallback (`params[str(i)] = value`). -/
structure Record where
  fn_name : String
  args : List PyValue
  kwargs : List (String × PyValue)

/-- `log_call(fn, *args, **kwargs)` (lines 83-104), up to the point where the
`(name, params)` pair is handed to `save_log`: a `MethodDescriptorType`
callable is named through `inspect.getmodule(fn.__objclass__)`, any other
through `inspect.getmodule(fn) or inspect.getmodule(type(fn))`; when no
module resolves, a warning is surfaced and no record is produced. -/
def log_call (fn : PyValue) (args : List PyValue) (kwargs : List (String × PyValue)) :
    Option Record :=
  let m := match fn with
    | .methodDescr _ cm _ => cm
    | v => getmodule v
  match m with
  | none => none
  | some m => some ⟨m ++ "." ++ pyQualname fn, args, kwargs⟩

namespace Stack

/-- `Stack.process(keyed_args, fn, *args, **kwargs)` (lines 186-198): when
`should_trace(*keyed_args)` passes, a builtin method whose `__self__` is not
a module is expanded to `(getattr(type(self_), fn.__name__), self_, *args)` —
on the native receivers this rewrite addresses, that attribute is the type's
unbound method descriptor — then `log_call` emits at most one record and the
caller frame's key is added to `recorded_calls`. The source calls `log_call`
before the `add`; both effects are returned together here (the serializer's
failure path is modelled separately by `handleOpcodeE`). -/
def process (t : TracerState) (key : Nat × Nat) (keyed_args : List PyValue)
    (fn : PyValue) (args : List PyValue) (kwargs : List (String × PyValue)) :
    TracerState × List Record :=
  if should_trace t.module keyed_args then
    let fa : PyValue × List PyValue :=
      match fn with
      | .builtinMethod self_ n _ =>
          if isModuleVal self_ then (fn, args)
          else (.methodDescr (typeQualname self_) (typeModule self_) n, self_ :: args)
      | _ => (fn, args)
    let recs : List Record := match log_call fa.1 fa.2 kwargs with
      | some r => [r]
      | none => []
    ({ t with recorded_calls := insert key t.recorded_calls }, recs)
  else (t, [])

end Stack

/-- One pending `stack.process(...)` invocation of an opcode branch. -/
structure ProcCall where
  keyed : List PyValue
  fn : PyValue
  args : List PyValue
  kwargs : List (String × PyValue)

/-- An `operator` module function such as `op.add`: a builtin function whose
`__self__` is the `_operator` module. -/
def opFn (n : String) : PyValue :=
  .builtinMethod (.module "_operator") n (some "_operator")

/-- A `builtins` function such as `iter` or `getattr`. -/
def builtinFn (n : String) : PyValue :=
  .builtinMethod (.module "builtins") n (some "builtins")

/-- The `UNARY_OPS` dispatch table (lines 291-301). -/
def UNARY_OPS (x : String) : Option PyValue :=
  if x = "UNARY_POSITIVE" then some (opFn "pos")
  else if x = "UNARY_NEGATIVE" then some (opFn "neg")
  else if x = "UNARY_NOT" then some (opFn "not_")
  else if x = "UNARY_INVERT" then some (opFn "invert")
  else if x = "GET_ITER" then some (builtinFn "iter")
  else if x = "GET_YIELD_FROM_ITER" then some (builtinFn "iter")
  else if x = "UNPACK_SEQUENCE" then some (builtinFn "iter")
  else if x = "UNPACK_EX" then some (builtinFn "iter")
  else if x = "FOR_ITER" then some (builtinFn "iter")
  else none

/-- The `BINARY_OPS` dispatch table (lines 307-334): the thirteen binary and
thirteen in-place arithmetic/bitwise instructions. -/
def BINARY_OPS (x : String) : Option PyValue :=
  if x = "BINARY_POWER" then some (opFn "pow")
  else if x = "BINARY_MULTIPLY" then some (opFn "mul")
  else if x = "BINARY_MATRIX_MULTIPLY" then some (opFn "matmul")
  else if x = "BINARY_FLOOR_DIVIDE" then some (opFn "floordiv")
  else if x = "BINARY_TRUE_DIVIDE" then some (opFn "truediv")
  else if x = "BINARY_MODULO" then some (opFn "mod")
  else if x = "BINARY_ADD" then some (opFn "add")
  else if x = "BINARY_SUBTRACT" then some (opFn "sub")
  else if x = "BINARY_LSHIFT" then some (opFn "lshift")
  else if x = "BINARY_RSHIFT" then some (opFn "rshift")
  else if x = "BINARY_AND" then some (opFn "and_")
  else if x = "BINARY_XOR" then some (opFn "xor")
  else if x = "BINARY_OR" then some (opFn "or_")
  else if x = "INPLACE_POWER" then some (opFn "ipow")
  else if x = "INPLACE_MULTIPLY" then some (opFn "imul")
  else if x = "INPLACE_MATRIX_MULTIPLY" then some (opFn "imatmul")
  else if x = "INPLACE_FLOOR_DIVIDE" then some (opFn "ifloordiv")
  else if x = "INPLACE_TRUE_DIVIDE" then some (opFn "itruediv")
  else if x = "INPLACE_MODULO" then some (opFn "imod")
  else if x = "INPLACE_ADD" then some (opFn "iadd")
  else if x = "INPLACE_SUBTRACT" then some (opFn "isub")
  else if x = "INPLACE_LSHIFT" then some (opFn "ilshift")
  else if x = "INPLACE_RSHIFT" then some (opFn "irshift")
  else if x = "INPLACE_AND" then some (opFn "iand")
  else if x = "INPLACE_OR" then some (opFn "ior")
  else if x = "INPLACE_XOR" then some (opFn "ixor")
  else none

/-- The `COMPARISONS` table (lines 375-386) as the dict literal actually
evaluates: the literal writes `"<": op.lt` and then `"<": op.le` (a
duplicate key — CPython's `cmp_op` list that the adjacent comment cites has
`"<="` at that position), and a Python dict literal keeps the last binding
for a repeated key. The evaluated table therefore maps `"<"` to `op.le` and
has no `"<="` entry at all. -/
def COMPARISONS (x : String) : Option PyValue :=
  if x = "<" then some (opFn "le")
  else if x = "==" then some (opFn "eq")
  else if x = "!=" then some (opFn "ne")
  else if x = ">" then some (opFn "gt")
  else if x = ">=" then some (opFn "ge")
  else if x = "in" then some (opFn "contains")
  else if x = "not in" then some (opFn "contains")
  else if x = "is" then some (opFn "is_")
  else if x = "is not" then some (opFn "is_not")
  else none

/-- The keys of the `BINARY_OPS` dict, one constructor per entry (thirteen
`BINARY_*` and thirteen `INPLACE_*` instructions), with the `operator`
function each maps to. -/
inductive BinOp where
  | pow | mul | matmul | floordiv | truediv | mod | add | sub
  | lshift | rshift | and_ | xor | or_
  | ipow | imul | imatmul | ifloordiv | itruediv | imod | iadd | isub
  | ilshift | irshift | iand | ior | ixor

/-- The instruction opname of a `BINARY_OPS` entry. -/
def BinOp.instrName : BinOp → String
  | .pow => "BINARY_POWER"
  | .mul => "BINARY_MULTIPLY"
  | .matmul => "BINARY_MATRIX_MULTIPLY"
  | .floordiv => "BINARY_FLOOR_DIVIDE"
  | .truediv => "BINARY_TRUE_DIVIDE"
  | .mod => "BINARY_MODULO"
  | .add => "BINARY_ADD"
  | .sub => "BINARY_SUBTRACT"
  | .lshift => "BINARY_LSHIFT"
  | .rshift => "BINARY_RSHIFT"
  | .and_ => "BINARY_AND"
  | .xor => "BINARY_XOR"
  | .or_ => "BINARY_OR"
  | .ipow => "INPLACE_POWER"
  | .imul => "INPLACE_MULTIPLY"
  | .imatmul => "INPLACE_MATRIX_MULTIPLY"
  | .ifloordiv => "INPLACE_FLOOR_DIVIDE"
  | .itruediv => "INPLACE_TRUE_DIVIDE"
  | .imod => "INPLACE_MODULO"
  | .iadd => "INPLACE_ADD"
  | .isub => "INPLACE_SUBTRACT"
  | .ilshift => "INPLACE_LSHIFT"
  | .irshift => "INPLACE_RSHIFT"
  | .iand => "INPLACE_AND"
  | .ior => "INPLACE_OR"
  | .ixor => "INPLACE_XOR"

/-- The `__name__` of the `operator` function a `BINARY_OPS` entry maps to. -/
def BinOp.fnName : BinOp → String
  | .pow => "pow"
  | .mul => "mul"
  | .matmul => "matmul"
  | .floordiv => "floordiv"
  | .truediv => "truediv"
  | .mod => "mod"
  | .add => "add"
  | .sub => "sub"
  | .lshift => "lshift"
  | .rshift => "rshift"
  | .and_ => "and_"
  | .xor => "xor"
  | .or_ => "or_"
  | .ipow => "ipow"
  | .imul => "imul"
  | .imatmul => "imatmul"
  | .ifloordiv => "ifloordiv"
  | .itruediv => "itruediv"
  | .imod => "imod"
  | .iadd => "iadd"
  | .isub => "isub"
  | .ilshift => "ilshift"
  | .irshift => "irshift"
  | .iand => "iand"
  | .ior => "ior"
  | .ixor => "ixor"

/-- The `stack.process(...)` invocations the opcode branch of
`Tracer.__call__` (lines 279-424) performs for one instruction, in source
order. Each component mirrors one `if opname ...` block; a fresh `Stack` is
built per event, so each block's `pop`s read `op_stack` slots from index 0.
`pop_n(n)` returns `(take n).reverse` — the popped items with the top of the
stack on the right (lines 177-184). -/
def opcodeProcesses (f : Frame) : List ProcCall :=
  (match UNARY_OPS f.opname with
   | some fn => [⟨[f.TOS], fn, [f.TOS], []⟩]
   | none => [])
  ++
  (match BINARY_OPS f.opname with
   | some fn => [⟨[f.TOS, f.TOS1], fn, [f.TOS1, f.TOS], []⟩]
   | none => [])
  ++
  (if f.opname = "BINARY_SUBSCR" then
    [⟨[f.TOS1], opFn "getitem", [f.TOS1, f.TOS], []⟩]
   else [])
  ++
  (if f.opname = "STORE_SUBSCR" then
    [⟨[f.TOS1], opFn "setitem", [f.TOS1, f.TOS, f.TOS2], []⟩]
   else [])
  ++
  (if f.opname = "DELETE_SUBSCR" then
    [⟨[f.TOS1], opFn "delitem", [f.TOS1, f.TOS], []⟩]
   else [])
  ++
  (if f.opname = "LOAD_ATTR" then
    [⟨[f.TOS], builtinFn "getattr", [f.TOS, .prim (.str f.opvalname)], []⟩]
   else [])
  ++
  (if f.opname = "STORE_ATTR" then
    [⟨[f.TOS], builtinFn "setattr", [f.TOS, .prim (.str f.opvalname), f.TOS1], []⟩]
   else [])
  ++
  (if f.opname = "DELETE_ATTR" then
    [⟨[f.TOS], builtinFn "delattr", [f.TOS, .prim (.str f.opvalname)], []⟩]
   else [])
  ++
  (if f.opname = "BUILD_TUPLE_UNPACK" ∨ f.opname = "BUILD_LIST_UNPACK"
      ∨ f.opname = "BUILD_SET_UNPACK" then
    ((f.op_stack.take f.oparg).reverse).map (fun v => ⟨[v], builtinFn "iter", [v], []⟩)
   else [])
  ++
  (if f.opname = "BUILD_TUPLE_UNPACK_WITH_CALL" then
    -- pops top-first (no reversal in this loop), extending `args` with each
    -- popped iterable's elements, then pops and processes the callable
    (f.op_stack.take f.oparg).map (fun v => ⟨[v], builtinFn "iter", [v], []⟩)
    ++ [⟨[f.op_stack.getD f.oparg .null], f.op_stack.getD f.oparg .null,
         (f.op_stack.take f.oparg).foldl (fun acc v => acc ++ listOf v) [], []⟩]
   else [])
  ++
  (if f.opname = "COMPARE_OP" then
    match COMPARISONS f.opvalcompare with
    | some fn => [⟨[f.TOS, f.TOS1], fn, [f.TOS1, f.TOS], []⟩]
    | none => []
   else [])
  ++
  (if f.opname = "CALL_FUNCTION" then
    [⟨[f.op_stack.getD f.oparg .null], f.op_stack.getD f.oparg .null,
      (f.op_stack.take f.oparg).reverse, []⟩]
   else [])
  ++
  (if f.opname = "CALL_FUNCTION_KW" then
    match f.op_stack.getD 0 .null with
    | .strTuple names =>
      -- kwargs_names = pop(); kwargs = {name: pop() for name in kwargs_names}:
      -- the i-th name of the tuple is paired with the (i+1)-th slot from the
      -- top, i.e. the names are read first-to-last while the pops return the
      -- pushed keyword values last-to-first
      [⟨[f.op_stack.getD (1 + f.oparg) .null], f.op_stack.getD (1 + f.oparg) .null,
        (((f.op_stack.drop (1 + names.length)).take (f.oparg - names.length)).reverse),
        names.enum.map (fun p => (p.2, f.op_stack.getD (1 + p.1) .null))⟩]
    | _ => []  -- unreachable: the compiler pushes a constant tuple of names
   else [])
  ++
  (if f.opname = "CALL_FUNCTION_EX" then
    if f.oparg % 2 = 1 then
      [⟨[f.op_stack.getD 2 .null], f.op_stack.getD 2 .null,
        listOf (f.op_stack.getD 1 .null), kwItems (f.op_stack.getD 0 .null)⟩]
    else
      [⟨[f.op_stack.getD 1 .null], f.op_stack.getD 1 .null,
        listOf (f.op_stack.getD 0 .null), []⟩]
   else [])
  ++
  (if f.opname = "CALL_METHOD" then
    match f.op_stack.getD (f.oparg + 1) .null with
    | .null =>
      [⟨[f.op_stack.getD f.oparg .null], f.op_stack.getD f.oparg .null,
        (f.op_stack.take f.oparg).reverse, []⟩]
    | m =>
      [⟨[f.op_stack.getD f.oparg .null], m,
        f.op_stack.getD f.oparg .null :: (f.op_stack.take f.oparg).reverse, []⟩]
   else [])

/-- Run the opcode branch's `process` calls in order, threading the tracer
state and concatenating the emitted records. -/
def runProcs (t : TracerState) (key : Nat × Nat) : List ProcCall → TracerState × List Record
  | [] => (t, [])
  | p :: ps =>
    let r := Stack.process t key p.keyed p.fn p.args p.kwargs
    let rest := runProcs r.1 key ps
    (rest.1, r.2 ++ rest.2)

/-- The opcode-event body of `Tracer.__call__` (lines 279-424): dispatch the
decoded instruction and perform its captures against this frame's call-site
key. -/
def handleOpcode (t : TracerState) (f : Frame) : TracerState × List Record :=
  runProcs t (frame_to_key f) (opcodeProcesses f)

/-- The events `sys.settrace`/`f_trace` deliver to `Tracer.__call__` that the
tracer distinguishes: `call`, `opcode`, and everything else (line, return,
exception — `if event != "opcode": return None`). -/
inductive Event where
  | call (f : Frame)
  | opcode (f : Frame)
  | line (f : Frame)

def Event.frame : Event → Frame
  | .call f => f
  | .opcode f => f
  | .line f => f

/-- The caller-walk test of lines 258-262: some frame between the event's
frame and `top_level_frame` (exclusive) has an ignored code identity. -/
abbrev walkHit (t : TracerState) (f : Frame) : Prop :=
  ∃ cid ∈ f.walkIds, cid ∈ t.ignored_code_ids

/-- The result of one `Tracer.__call__` invocation: the new state, the
records emitted while handling the event, and whether the tracer returned
itself (`true`, keep tracing into this scope) or `None`. -/
structure StepResult where
  state : TracerState
  records : List Record
  returnedSelf : Bool

/-- The `call`-event branch of `Tracer.__call__` (lines 264-275): consume
the caller's key from `recorded_calls` if present (one-shot `remove`), mark
the callee's code identity ignored and stop tracing below (`f_trace = None`,
`f_trace_opcodes = False`); if absent (`except KeyError`), enable opcode
tracing in the new frame and return the tracer itself. A `call` frame always
has a caller in CPython; `f_back = none` is the unreachable case where the
source would fault on `frame.f_back.f_code`, modelled as the keep-tracing
branch. -/
def callEvent (t : TracerState) (f : Frame) : StepResult :=
  match f.f_back with
  | none => ⟨t, [], true⟩
  | some b =>
    if frame_to_key b ∈ t.recorded_calls then
      ⟨{ t with recorded_calls := t.recorded_calls.erase (frame_to_key b),
                ignored_code_ids := insert f.f_code_id t.ignored_code_ids },
        [], false⟩
    else ⟨t, [], true⟩

/-- `Tracer.__call__(frame, event, arg)` (lines 257-424). First the walk up
the caller chain: any ignored code identity short-circuits to `None` with
nothing emitted and no state change (lines 258-262). A `call` event then
runs `callEvent`; an `opcode` event runs the dispatch and returns `None`
afterwards (which CPython ignores for local events); all other events just
return `None` (line 277). -/
def tracerStep (t : TracerState) (e : Event) : StepResult :=
  if walkHit t e.frame then ⟨t, [], false⟩
  else
    match e with
    | .call f => callEvent t f
    | .opcode f => ⟨(handleOpcode t f).1, (handleOpcode t f).2, false⟩
    | .line _ => ⟨t, [], false⟩

/-- A sequence of delivered events, threading the tracer state and
concatenating every emitted record. -/
def runEvents (t : TracerState) : List Event → TracerState × List Record
  | [] => (t, [])
  | e :: es =>
    let r := tracerStep t e
    let rest := runEvents r.state es
    (rest.1, r.records ++ rest.2)

/-- `JSONEncoder.default(o)` (lines 38-52): `tp = type(o)`;
`module = inspect.getmodule(tp)`; **`assert module`** — when the type's
declaring module cannot be determined, an uncaught `AssertionError` is
raised (the error value here). Otherwise the value is rendered as
`{"__tp": module.__name__ + "." + tp.__qualname__}`, with an extractor
payload `"__v"` for the types in the `ENCODERS` registry (of the registered
types, only module objects are representable as `PyValue`s; the `slice` and
`numpy.ndarray` extractors concern values outside this model). -/
def JSONEncoder.default (o : PyValue) : Except String JValue :=
  match typeModule o with
  | none => .error "AssertionError"
  | some m =>
    let tp_name := m ++ "." ++ typeQualname o
    match o with
    | .module n =>
      .ok (.dict [(.str "__tp", .str tp_name), (.str "__v", JSONEncoder.process (.str n))])
    | _ => .ok (.dict [(.str "__tp", .str tp_name)])

/-- The serialisation of one parameter value by
`json.dumps(..., cls=JSONEncoder)`: a directly serialisable builtin passes
through the `iterencode` normalisation (`JSONEncoder.process`, a tuple
becoming the tagged dict shape), every other object reaches
`JSONEncoder.default`. A nested `pyDict` argument is rendered opaquely
through `default` here; the claims only exercise scalar and
unresolvable-type arguments. -/
def encodeValue : PyValue → Except String JValue
  | .prim j => .ok (JSONEncoder.process j)
  | .strTuple ns => .ok (JSONEncoder.process (.tuple (ns.map JValue.str)))
  | v => JSONEncoder.default v

/-- The `params` mapping `log_call` builds when the callable's signature is
not introspectable (lines 97-100, the `except ValueError` fallback —
signature binding itself is external introspection): the keyword arguments
followed by `params[str(i)] = value` for each positional argument. -/
def log_params (r : Record) : List (String × PyValue) :=
  r.kwargs ++ (r.args.enum.map (fun p => (toString p.1, p.2)))

/-- `save_log(fn, params)` (lines 75-80): serialise
`{"function": fn, "params": params}`. Nothing in `save_log`, `log_call`,
`Stack.process` or `Tracer.__call__` catches an encoder failure, so the
first failing value's error propagates. -/
def save_log (r : Record) : Except String JValue := do
  let ps ← (log_params r).mapM (fun p => do
    let jv ← encodeValue p.2
    pure ((JValue.str p.1, jv) : JValue × JValue))
  pure (.dict [(.str "function", .str r.fn_name), (.str "params", .dict ps)])

/-- The opcode-event body with serialisation included: each record captured
by `handleOpcode` is written through `save_log`, and an encoder failure
propagates out of the tracer hook (in CPython, a trace function that raises
is unset and the exception surfaces in the traced program). In the source
the writes happen inside each `process` call; for the failure behaviour the
claims examine — does an encoding error escape the hook? — serialising the
captured records in order is equivalent. -/
def handleOpcodeE (t : TracerState) (f : Frame) : Except String (TracerState × List JValue) := do
  let r := handleOpcode t f
  let outs ← r.2.mapM save_log
  pure (r.1, outs)

/-! ### Concrete fixtures
A target module `"numpy"`, a traced array object, and frames for the
concrete evaluations of the witnesses and counterexamples. -/

/-- A fresh tracer for the target module prefix `"numpy"`. -/
def t0 : TracerState := ⟨"numpy", ∅, ∅⟩

/-- A `numpy.ndarray` instance: its type is declared in module `numpy` and
the value resolves to `numpy`. -/
def arr0 : PyValue := .obj "ndarray" (some "numpy") (some "numpy") "a"

/-- `x < 2` on a traced array: `COMPARE_OP` with comparator code 0 (`"<"`),
`TOS = 2`, `TOS1 = x`. -/
def frameLt : Frame :=
  .mk 7 4 "COMPARE_OP" 0 [] [.prim (.num 2), arr0] none

/-- `x <= 2` on a traced array: `COMPARE_OP` with comparator code 1 (`"<="`). -/
def frameLe : Frame :=
  .mk 7 6 "COMPARE_OP" 1 [] [.prim (.num 2), arr0] none

/-- `numpy.power` as a callable value: a ufunc whose type is declared in
`numpy` and which resolves to `numpy`. -/
def powerFn : PyValue := .obj "ufunc" (some "numpy") (some "numpy") "power"

/-- `np.power(7, x=1, y=2)`: `CALL_FUNCTION_KW` with `oparg = 3`, the names
constant `("x", "y")` on top, then the pushed keyword values `2`, `1`
(last pushed on top), the positional `7`, and the callable below. -/
def frameKw : Frame :=
  .mk 7 8 "CALL_FUNCTION_KW" 3 []
    [.strTuple ["x", "y"], .prim (.num 2), .prim (.num 1), .prim (.num 7), powerFn] none

/-- A value of a type whose declaring module cannot be determined:
`inspect.getmodule(tp)` is `None`, so `JSONEncoder.default`'s
`assert module` fails on it. -/
def badVal : PyValue := .obj "Mystery" none none "mystery"

/-- `np.power(badVal)`: `CALL_FUNCTION` whose single argument cannot be
serialised. -/
def frameBad : Frame :=
  .mk 7 10 "CALL_FUNCTION" 1 [] [badVal, powerFn] none

/-- `x.shape` on a traced array: `LOAD_ATTR` with name-table entry `shape`. -/
def frameAttr : Frame :=
  .mk 7 12 "LOAD_ATTR" 0 ["shape"] [arr0] none

/-- The bound native method `x.sort` of a traced array. -/
def sortMethod : PyValue := .builtinMethod arr0 "sort" (some "numpy")

/-- The top-level traced frame of the concrete event sequences. -/
def frameTop : Frame := .mk 1 0 "CALL_FUNCTION" 0 [] [] none

/-- A caller executing a captured call instruction at offset 10. -/
def frameCaller : Frame := .mk 2 10 "CALL_FUNCTION" 0 [] [] (some frameTop)

/-- The callee frame entered by the captured call. -/
def frameCallee : Frame := .mk 3 0 "BINARY_ADD" 0 [] [.prim (.num 1), arr0] (some frameCaller)

/-- A tracer state in which `frameCaller`'s call site has just been captured. -/
def t1 : TracerState := ⟨"numpy", {(2, 10)}, ∅⟩

/-- A tracer state in which code id 3 is already ignored. -/
def t2 : TracerState := ⟨"numpy", ∅, {3}⟩

/-! ## Helper lemmas -/

set_option maxRecDepth 40000

namespace JSONEncoder

set_option maxHeartbeats 1600000 in
theorem process_str (s : String) : process (.str s) = .str (s.take MAX_LENGTH) := rfl

set_option maxHeartbeats 1600000 in
theorem process_list (xs : List JValue) :
    process (.list xs) = .list (processTake MAX_LENGTH xs) := rfl

set_option maxHeartbeats 1600000 in
theorem process_dict (es : List (JValue × JValue)) :
    process (.dict es) = .dict (processEntries MAX_LENGTH es) := rfl

set_option maxHeartbeats 1600000 in
theorem process_tuple (xs : List JValue) :
    process (.tuple xs) =
      .dict [(.str "__tp", .str "tuple"), (.str "value", .list (processTake MAX_LENGTH xs))] := rfl

theorem process_null : process .null = .null := rfl

theorem process_bool (b : Bool) : process (.bool b) = .bool b := rfl

theorem process_num (n : Int) : process (.num n) = .num n := rfl

theorem processTake_nil (n : Nat) : processTake n [] = [] := by
  cases n <;> rfl

set_option maxHeartbeats 1600000 in
theorem processTake_succ (n : Nat) (v : JValue) (vs : List JValue) :
    processTake (n + 1) (v :: vs) = process v :: processTake n vs := rfl

set_option maxHeartbeats 1600000 in
theorem processTake_zero (v : JValue) (vs : List JValue) :
    processTake 0 (v :: vs) = [] := rfl

theorem processEntries_nil (n : Nat) : processEntries n [] = [] := by
  cases n <;> rfl

set_option maxHeartbeats 1600000 in
theorem processEntries_zero (k v : JValue) (es : List (JValue × JValue)) :
    processEntries 0 ((k, v) :: es) = [] := rfl

set_option maxHeartbeats 1600000 in
theorem processEntries_succ (n : Nat) (k v : JValue) (es : List (JValue × JValue)) :
    processEntries (n + 1) ((k, v) :: es) = (process k, process v) :: processEntries n es := rfl

/-- `s[:n]` of a string no longer than `n` is the string itself. -/
theorem string_take_of_le (s : String) (n : Nat) (h : s.data.length ≤ n) :
    s.take n = s := by
  apply String.ext
  simp [String.data_take, List.take_of_length_le h]

/-- Truncating twice to the same length truncates once. -/
theorem string_take_take (s : String) (n : Nat) : (s.take n).take n = s.take n := by
  apply String.ext
  simp [String.data_take, List.take_take]

/-- A string no longer than the cap is left unchanged by `process`. -/
theorem process_str_short (s : String) (h : s.data.length ≤ MAX_LENGTH) :
    process (.str s) = .str s := by
  rw [process_str, string_take_of_le s _ h]

/-- When the whole entry list fits the budget, `processEntries` processes
every entry. -/
theorem processEntries_of_le (n : Nat) (l : List (JValue × JValue)) (h : l.length ≤ n) :
    processEntries n l = l.map (fun e => (process e.1, process e.2)) := by
  induction l generalizing n with
  | nil => simp [processEntries_nil]
  | cons e es ih =>
    obtain ⟨k, v⟩ := e
    cases n with
    | zero => simp at h
    | succ m =>
      rw [processEntries_succ, ih m (by simpa using h)]
      rfl

mutual
/-- `process` is idempotent on every value. -/
theorem process_idem (v : JValue) : process (process v) = process v := by
  match v with
  | .null => rw [process_null, process_null]
  | .bool b => rw [process_bool, process_bool]
  | .num n => rw [process_num, process_num]
  | .str s =>
    rw [process_str, process_str, string_take_take]
  | .list xs =>
    rw [process_list, process_list, processTake_idem MAX_LENGTH xs]
  | .dict es =>
    rw [process_dict, process_dict, processEntries_idem MAX_LENGTH es]
  | .tuple xs =>
    rw [process_tuple, process_dict, processEntries_of_le _ _ (by simp [MAX_LENGTH])]
    simp only [List.map]
    rw [process_str_short (s := "__tp") (by decide),
        process_str_short (s := "tuple") (by decide),
        process_str_short (s := "value") (by decide),
        process_list, processTake_idem MAX_LENGTH xs]
termination_by sizeOf v

/-- `processTake` is idempotent for a fixed budget. -/
theorem processTake_idem (n : Nat) (l : List JValue) :
    processTake n (processTake n l) = processTake n l := by
  match n, l with
  | m, [] => rw [processTake_nil, processTake_nil]
  | 0, v :: vs => rw [processTake_zero, processTake_nil]
  | m + 1, v :: vs =>
    rw [processTake_succ, processTake_succ, process_idem v, processTake_idem m vs]
termination_by sizeOf l

/-- `processEntries` is idempotent for a fixed budget. -/
theorem processEntries_idem (n : Nat) (l : List (JValue × JValue)) :
    processEntries n (processEntries n l) = processEntries n l := by
  match n, l with
  | m, [] => rw [processEntries_nil, processEntries_nil]
  | 0, e :: es =>
    obtain ⟨k, v⟩ := e
    rw [processEntries_zero, processEntries_nil]
  | m + 1, (k, v) :: es =>
    rw [processEntries_succ, processEntries_succ, process_idem k, process_idem v,
        processEntries_idem m es]
termination_by sizeOf l
end

end JSONEncoder

/-- Capturing one operation never touches `ignored_code_ids`. -/
theorem Stack.process_ignored (t : TracerState) (key : Nat × Nat) (keyed : List PyValue)
    (fn : PyValue) (args : List PyValue) (kwargs : List (String × PyValue)) :
    (Stack.process t key keyed fn args kwargs).1.ignored_code_ids = t.ignored_code_ids := by
  unfold Stack.process
  split <;> rfl

/-- Capturing one operation never touches the target-module prefix. -/
theorem Stack.process_module (t : TracerState) (key : Nat × Nat) (keyed : List PyValue)
    (fn : PyValue) (args : List PyValue) (kwargs : List (String × PyValue)) :
    (Stack.process t key keyed fn args kwargs).1.module = t.module := by
  unfold Stack.process
  split <;> rfl

/-- `Stack.process` only ever inserts into `recorded_calls`: membership is
preserved. -/
theorem Stack.process_recorded_mem (t : TracerState) (key k : Nat × Nat)
    (keyed : List PyValue) (fn : PyValue) (args : List PyValue)
    (kwargs : List (String × PyValue)) (h : k ∈ t.recorded_calls) :
    k ∈ (Stack.process t key keyed fn args kwargs).1.recorded_calls := by
  unfold Stack.process
  split
  · exact Finset.mem_insert_of_mem h
  · exact h

/-- An ungated operation leaves the state unchanged and emits nothing. -/
theorem Stack.process_not_gated (t : TracerState) (key : Nat × Nat) (keyed : List PyValue)
    (fn : PyValue) (args : List PyValue) (kwargs : List (String × PyValue))
    (h : should_trace t.module keyed = false) :
    Stack.process t key keyed fn args kwargs = (t, []) := by
  unfold Stack.process
  rw [h]
  rfl

/-- A gated operation inserts the caller's call-site key. -/
theorem Stack.process_gated_key (t : TracerState) (key : Nat × Nat) (keyed : List PyValue)
    (fn : PyValue) (args : List PyValue) (kwargs : List (String × PyValue))
    (h : should_trace t.module keyed = true) :
    key ∈ (Stack.process t key keyed fn args kwargs).1.recorded_calls := by
  unfold Stack.process
  rw [h]
  exact Finset.mem_insert_self _ _

/-- `runProcs` never touches `ignored_code_ids`. -/
theorem runProcs_ignored (t : TracerState) (key : Nat × Nat) (ps : List ProcCall) :
    (runProcs t key ps).1.ignored_code_ids = t.ignored_code_ids := by
  induction ps generalizing t with
  | nil => rfl
  | cons p ps ih =>
    show (runProcs (Stack.process t key p.keyed p.fn p.args p.kwargs).1 key ps).1.ignored_code_ids
      = t.ignored_code_ids
    rw [ih, Stack.process_ignored]

/-- `runProcs` preserves membership of `recorded_calls`. -/
theorem runProcs_recorded_mem (t : TracerState) (key k : Nat × Nat) (ps : List ProcCall)
    (h : k ∈ t.recorded_calls) : k ∈ (runProcs t key ps).1.recorded_calls := by
  induction ps generalizing t with
  | nil => exact h
  | cons p ps ih =>
    exact ih _ (Stack.process_recorded_mem _ _ _ _ _ _ _ h)

/-- If any of the `process` calls of one instruction emitted a record, the
instruction's call-site key ends up in `recorded_calls`. -/
theorem runProcs_key_of_records (t : TracerState) (key : Nat × Nat) (ps : List ProcCall)
    (h : (runProcs t key ps).2 ≠ []) : key ∈ (runProcs t key ps).1.recorded_calls := by
  induction ps generalizing t with
  | nil => exact absurd rfl h
  | cons p ps ih =>
    by_cases hst : should_trace t.module p.keyed
    · show key ∈ (runProcs (Stack.process t key p.keyed p.fn p.args p.kwargs).1 key ps).1.recorded_calls
      exact runProcs_recorded_mem _ _ _ _ (Stack.process_gated_key _ _ _ _ _ _ hst)
    · rw [Bool.not_eq_true] at hst
      show key ∈ (runProcs (Stack.process t key p.keyed p.fn p.args p.kwargs).1 key ps).1.recorded_calls
      have hnil := Stack.process_not_gated t key p.keyed p.fn p.args p.kwargs hst
      rw [hnil]
      apply ih
      have : (runProcs t key (p :: ps)).2
          = (Stack.process t key p.keyed p.fn p.args p.kwargs).2
            ++ (runProcs (Stack.process t key p.keyed p.fn p.args p.kwargs).1 key ps).2 := rfl
      rw [this, hnil] at h
      simpa using h

/-- The opcode-event body never touches `ignored_code_ids`. -/
theorem handleOpcode_ignored (t : TracerState) (f : Frame) :
    (handleOpcode t f).1.ignored_code_ids = t.ignored_code_ids := by
  rw [handleOpcode]
  exact runProcs_ignored _ _ _

/-- A caller-walk hit short-circuits the tracer: state unchanged, nothing
emitted, `None` returned (lines 258-262). -/
theorem tracerStep_suppressed (t : TracerState) (e : Event) (h : walkHit t e.frame) :
    tracerStep t e = ⟨t, [], false⟩ := by
  rw [tracerStep.eq_def, if_pos h]

/-- An unsuppressed `call` event is handled by `callEvent`. -/
theorem tracerStep_call (t : TracerState) (f : Frame) (h : ¬ walkHit t f) :
    tracerStep t (.call f) = callEvent t f := by
  rw [tracerStep.eq_def]
  simp only [Event.frame]
  rw [if_neg h]

/-- An unsuppressed `opcode` event runs the dispatch and returns `None`. -/
theorem tracerStep_opcode (t : TracerState) (f : Frame) (h : ¬ walkHit t f) :
    tracerStep t (.opcode f) = ⟨(handleOpcode t f).1, (handleOpcode t f).2, false⟩ := by
  rw [tracerStep.eq_def]
  simp only [Event.frame]
  rw [if_neg h]

/-- Entering a frame whose caller's call site was just captured consumes the
key, ignores the callee's code identity and suppresses tracing below
(lines 264-275). -/
theorem callEvent_captured (t : TracerState) (f b : Frame) (hb : f.f_back = some b)
    (hkey : frame_to_key b ∈ t.recorded_calls) :
    callEvent t f =
      ⟨{ t with recorded_calls := t.recorded_calls.erase (frame_to_key b),
                ignored_code_ids := insert f.f_code_id t.ignored_code_ids },
        [], false⟩ := by
  rw [callEvent.eq_def, hb]
  simp only
  rw [if_pos hkey]

/-- Entering a frame whose caller's call site was not captured keeps
tracing (the `except KeyError` branch). -/
theorem callEvent_uncaptured (t : TracerState) (f b : Frame) (hb : f.f_back = some b)
    (hkey : frame_to_key b ∉ t.recorded_calls) :
    callEvent t f = ⟨t, [], true⟩ := by
  rw [callEvent.eq_def, hb]
  simp only
  rw [if_neg hkey]

/-- An unsuppressed `line` (or other non-call, non-opcode) event is a no-op. -/
theorem tracerStep_line (t : TracerState) (f : Frame) (h : ¬ walkHit t f) :
    tracerStep t (.line f) = ⟨t, [], false⟩ := by
  rw [tracerStep.eq_def]
  simp only [Event.frame]
  rw [if_neg h]

/-- One event can only grow `ignored_code_ids`. -/
theorem tracerStep_ignored_mono (t : TracerState) (e : Event) :
    t.ignored_code_ids ⊆ (tracerStep t e).state.ignored_code_ids := by
  by_cases h : walkHit t e.frame
  · rw [tracerStep_suppressed t e h]
  · match e with
    | .call f =>
      rw [tracerStep_call t f h]
      match hb : f.f_back with
      | none => rw [callEvent.eq_def, hb]
      | some b =>
        by_cases hkey : frame_to_key b ∈ t.recorded_calls
        · rw [callEvent_captured t f b hb hkey]
          exact Finset.subset_insert _ _
        · rw [callEvent_uncaptured t f b hb hkey]
    | .opcode f =>
      rw [tracerStep_opcode t f h]
      dsimp only
      rw [handleOpcode_ignored]
    | .line f => rw [tracerStep_line t f h]

/-- A whole event sequence can only grow `ignored_code_ids`. -/
theorem runEvents_ignored_mono (t : TracerState) (es : List Event) :
    t.ignored_code_ids ⊆ (runEvents t es).1.ignored_code_ids := by
  induction es generalizing t with
  | nil => exact Finset.Subset.refl _
  | cons e es ih => exact (tracerStep_ignored_mono t e).trans (ih _)

/-- Once a code identity is ignored, every event delivered for a frame whose
caller walk contains it emits nothing. -/
theorem runEvents_suppressed (s : TracerState) (cid : Nat) (es : List Event)
    (hs : cid ∈ s.ignored_code_ids)
    (hall : ∀ e ∈ es, cid ∈ (Event.frame e).walkIds) :
    (runEvents s es).2 = [] := by
  induction es with
  | nil => rfl
  | cons e es ih =>
    have hw : walkHit s e.frame := ⟨cid, hall e (by simp), hs⟩
    show ((tracerStep s e).records ++ (runEvents (tracerStep s e).state es).2) = []
    rw [tracerStep_suppressed s e hw]
    exact ih (fun e' he' => hall e' (by simp [he']))

/-- `runProcs` of the single `process` invocation most instructions make. -/
theorem runProcs_single (t : TracerState) (key : Nat × Nat) (p : ProcCall) :
    runProcs t key [p] =
      ((Stack.process t key p.keyed p.fn p.args p.kwargs).1,
       (Stack.process t key p.keyed p.fn p.args p.kwargs).2) := by
  show ((runProcs (Stack.process t key p.keyed p.fn p.args p.kwargs).1 key []).1,
      (Stack.process t key p.keyed p.fn p.args p.kwargs).2
        ++ (runProcs (Stack.process t key p.keyed p.fn p.args p.kwargs).1 key []).2) = _
  rw [runProcs]
  simp

/-- Capturing with an `operator`-module function as the callable: no
rewrite applies (its `__self__` is the `_operator` module), the name always
resolves, and the record keeps the arguments as passed. -/
theorem Stack.process_opFn (t : TracerState) (key : Nat × Nat) (keyed : List PyValue)
    (s : String) (args : List PyValue) (kwargs : List (String × PyValue)) :
    (Stack.process t key keyed (opFn s) args kwargs).2 =
      if should_trace t.module keyed then [⟨"_operator." ++ s, args, kwargs⟩] else [] := by
  unfold Stack.process
  split
  · rfl
  · rfl

/-- Every `BinOp` names its `BINARY_OPS` entry: the enumeration covers the
table exactly. -/
theorem BINARY_OPS_complete (b : BinOp) :
    BINARY_OPS b.instrName = some (opFn b.fnName) := by
  cases b <;> rfl

/-- One operand passes the gate iff its gating value's module resolves to a
name with the target prefix. -/
theorem operandResolves_iff (target : String) (v : PyValue) :
    operandResolves target v = true ↔
      ∃ m, getmodule (gateValue v) = some m ∧ pyStartsWith m target = true := by
  unfold operandResolves
  cases hm : getmodule (gateValue v) <;> simp [hm]

/-! ## Claims -/

/-- C1: For every binary or in-place arithmetic/bitwise instruction (the
`BINARY_OPS` table, enumerated by `BinOp` — see `BINARY_OPS_complete`), if
either the left (`TOS1`) or the right (`TOS`) operand resolves to the target
namespace then exactly one record is emitted, and its two positional
operands appear in left-to-right source order (left operand first, right
operand second); if neither operand resolves, no record is emitted. -/
theorem C1_binary_operand_order (b : BinOp) (t : TracerState) (cid li oparg : Nat)
    (names : List String) (back : Option Frame) (r l : PyValue) (rest : List PyValue) :
    (handleOpcode t (.mk cid li b.instrName oparg names (r :: l :: rest) back)).2 =
      if operandResolves t.module l || operandResolves t.module r
      then [⟨"_operator." ++ b.fnName, [l, r], []⟩]
      else [] := by
  cases b <;>
    (rw [handleOpcode]
     simp [opcodeProcesses, UNARY_OPS, BINARY_OPS, BinOp.instrName, BinOp.fnName,
       Frame.opname, Frame.TOS, Frame.TOS1, Frame.op_stack, List.getD,
       runProcs_single, Stack.process_opFn, should_trace, Bool.or_comm])

/-- C2: once a call into a target-namespace function has been captured (its
caller's `(code id, instruction offset)` key is in `recorded_calls` when the
callee's `call` event arrives), no record is emitted for that event, and no
record is emitted by any later event whose frame lies inside the callee's
activation — its caller walk contains the callee's code identity, which also
covers every recursive re-entry of the same code. -/
theorem C2_call_suppression (t : TracerState) (f b : Frame) (es : List Event)
    (hb : f.f_back = some b)
    (hkey : frame_to_key b ∈ t.recorded_calls)
    (hclear : ¬ walkHit t f)
    (hin : ∀ e ∈ es, f.f_code_id ∈ (Event.frame e).walkIds) :
    (tracerStep t (.call f)).records = [] ∧
    (runEvents (tracerStep t (.call f)).state es).2 = [] := by
  rw [tracerStep_call t f hclear, callEvent_captured t f b hb hkey]
  exact ⟨rfl, runEvents_suppressed _ f.f_code_id es (Finset.mem_insert_self _ _) hin⟩

theorem C2_call_suppression_witness :
    (tracerStep t1 (.call frameCallee)).records = [] ∧
    (runEvents (tracerStep t1 (.call frameCallee)).state [.opcode frameCallee]).2 = [] :=
  C2_call_suppression t1 frameCallee frameCaller [.opcode frameCallee]
    rfl (by decide) (by decide) (by decide)

/-- C3: a captured operation whose callable is a native (builtin) bound
method with a non-module receiver of determinable type module is logged as
the receiver type's unbound method — the qualified name is built from the
type's declaring module and qualname — with the receiver prepended as the
first positional argument ahead of the original arguments. -/
theorem C3_native_bound_method (t : TracerState) (key : Nat × Nat) (keyed : List PyValue)
    (self_ : PyValue) (n cm : String) (rm : Option String) (args : List PyValue)
    (kwargs : List (String × PyValue))
    (hmod : isModuleVal self_ = false)
    (hgate : should_trace t.module keyed = true)
    (hcm : typeModule self_ = some cm) :
    (Stack.process t key keyed (.builtinMethod self_ n rm) args kwargs).2 =
      [⟨cm ++ "." ++ (typeQualname self_ ++ "." ++ n), self_ :: args, kwargs⟩] := by
  unfold Stack.process
  rw [if_pos hgate]
  simp [hmod, log_call, hcm, pyQualname]

theorem C3_native_bound_method_witness :
    (Stack.process t0 (7, 14) [sortMethod] (.builtinMethod arr0 "sort" (some "numpy")) [] []).2 =
      [⟨"numpy" ++ "." ++ (typeQualname arr0 ++ "." ++ "sort"), arr0 :: [], []⟩] :=
  C3_native_bound_method t0 (7, 14) [sortMethod] arr0 "sort" "numpy" (some "numpy") [] []
    rfl rfl rfl

/-- C4: `should_trace` returns true iff at least one operand's gating value
(the receiver for a native bound method, the value itself otherwise) has a
resolvable declaring module whose name starts with the target prefix; an
operand whose module does not resolve never contributes, and if no operand
resolves the result is false. -/
theorem C4_should_trace_iff (target : String) (values : List PyValue) :
    should_trace target values = true ↔
      ∃ v ∈ values, ∃ m, getmodule (gateValue v) = some m ∧ pyStartsWith m target = true := by
  unfold should_trace
  rw [List.any_eq_true]
  constructor
  · rintro ⟨v, hv, hres⟩
    exact ⟨v, hv, (operandResolves_iff target v).1 hres⟩
  · rintro ⟨v, hv, hres⟩
    exact ⟨v, hv, (operandResolves_iff target v).2 hres⟩

/-- C5 (evaluation at the failing input): comparing `x < 2` on a traced
array — `COMPARE_OP` with comparator code 0, whose comparator is `"<"` —
emits a record whose operation is `operator.le`, not `operator.lt`, because
the `COMPARISONS` dict literal repeats the key `"<"` and the evaluated dict
keeps the last binding; and `x <= 2` (comparator code 1, `"<="`) emits no
record at all, since the evaluated dict has no `"<="` entry. -/
theorem C5_comparison_dispatch_eval :
    (handleOpcode t0 frameLt).2 = [⟨"_operator.le", [arr0, .prim (.num 2)], []⟩]
    ∧ (handleOpcode t0 frameLe).2 = [] :=
  ⟨rfl, rfl⟩

/-- C6 (evaluation at the failing input): `np.power(7, x=1, y=2)` is
reconstructed with its positional argument in source order but with its
keyword mapping swapped — `x` is paired with `2` and `y` with `1` — because
the names tuple is iterated first-to-last while the pops return the pushed
keyword values last-to-first. -/
theorem C6_call_function_kw_eval :
    (handleOpcode t0 frameKw).2 =
      [⟨"numpy.power", [.prim (.num 7)],
        [("x", .prim (.num 2)), ("y", .prim (.num 1))]⟩] := rfl

/-- C7: `ignored_code_ids` only grows — across one event and across any
event sequence — and every event delivered for a frame whose caller walk
(up to the top-level traced frame) contains an ignored code identity is
short-circuited: the state is unchanged, no record is emitted, and `None`
is returned, so no instruction-level interception is installed. -/
theorem C7_ignored_ids_growth_and_short_circuit (t : TracerState) (e : Event)
    (es : List Event) :
    t.ignored_code_ids ⊆ (tracerStep t e).state.ignored_code_ids
    ∧ t.ignored_code_ids ⊆ (runEvents t es).1.ignored_code_ids
    ∧ (walkHit t e.frame → tracerStep t e = ⟨t, [], false⟩) :=
  ⟨tracerStep_ignored_mono t e, runEvents_ignored_mono t es, tracerStep_suppressed t e⟩

/-- C8: the serializer's normalisation/truncation step is idempotent: for
every value `v`, `process (process v) = process v` — an already-truncated
value is returned unchanged and a longer value is truncated exactly once. -/
theorem C8_process_idempotent (v : JValue) :
    JSONEncoder.process (JSONEncoder.process v) = JSONEncoder.process v :=
  JSONEncoder.process_idem v

/-- C9 (counterexample): a captured call whose argument's type has no
determinable declaring module makes the serializer's `assert module` fail,
and the error propagates out of the opcode handler instead of being
isolated to that record: tracing is aborted, not continued. -/
theorem C9_isolation_counterexample :
    handleOpcodeE t0 frameBad = .error "AssertionError" := rfl

/-- C9 (amended): the failure is not isolated to the record. For any tracer
state, a `CALL_FUNCTION` event whose captured callable resolves to the
target namespace and whose argument fails to encode (its type's module
cannot be determined) makes the whole opcode handler return the encoder's
error — the exception escapes the tracer hook and aborts tracing instead of
leaving subsequent operations traced. -/
theorem C9_serialization_failure_propagates (t : TracerState) (cid li : Nat)
    (names : List String) (back : Option Frame) (v : PyValue)
    (cls nm m : String) (crm : Option String) (rest : List PyValue)
    (hgate : pyStartsWith m t.module = true)
    (hbad : encodeValue v = .error "AssertionError") :
    handleOpcodeE t
      (.mk cid li "CALL_FUNCTION" 1 names (v :: .obj cls crm (some m) nm :: rest) back)
      = .error "AssertionError" := by
  have hp : opcodeProcesses
      (.mk cid li "CALL_FUNCTION" 1 names (v :: .obj cls crm (some m) nm :: rest) back)
      = [⟨[.obj cls crm (some m) nm], .obj cls crm (some m) nm, [v], []⟩] := by
    simp [opcodeProcesses, UNARY_OPS, BINARY_OPS, Frame.opname, Frame.oparg,
      Frame.op_stack, List.getD]
  have hgate2 : should_trace t.module [PyValue.obj cls crm (some m) nm] = true := by
    simp [should_trace, operandResolves, gateValue, getmodule, hgate]
  have hrec : Stack.process t (cid, li) [PyValue.obj cls crm (some m) nm]
      (.obj cls crm (some m) nm) [v] []
      = ({ t with recorded_calls := insert (cid, li) t.recorded_calls },
         [⟨m ++ "." ++ nm, [v], []⟩]) := by
    unfold Stack.process
    rw [if_pos hgate2]
    rfl
  have hsave : save_log ⟨m ++ "." ++ nm, [v], []⟩ = .error "AssertionError" := by
    unfold save_log log_params
    simp only [List.nil_append, List.mapM, List.mapM.loop]
    rw [show encodeValue ((toString 0, v) : String × PyValue).2
        = Except.error "AssertionError" from hbad]
    rfl
  rw [handleOpcodeE, handleOpcode, hp, runProcs_single]
  dsimp only
  simp only [frame_to_key, Frame.f_code_id, Frame.f_lasti]
  rw [hrec]
  dsimp only
  rw [show (List.mapM save_log [(⟨m ++ "." ++ nm, [v], []⟩ : Record)]
      : Except String (List JValue)) = .error "AssertionError" by
    simp only [List.mapM, List.mapM.loop]
    rw [hsave]
    rfl]
  rfl

theorem C9_serialization_failure_propagates_witness :
    handleOpcodeE t0
      (.mk 7 10 "CALL_FUNCTION" 1 []
        (badVal :: .obj "ufunc" (some "numpy") (some "numpy") "power" :: []) none)
      = .error "AssertionError" :=
  C9_serialization_failure_propagates t0 7 10 [] none badVal "ufunc" "power" "numpy"
    (some "numpy") [] (by decide) rfl

set_option maxHeartbeats 1600000 in
/-- C10: whenever an opcode event captures and logs any operation — unary,
binary, subscript, attribute, comparison, unpack and call variants alike,
i.e. whenever at least one record is emitted — the frame's
`(code identity, current instruction offset)` key is inserted into
`recorded_calls`; consequently a Python-level callee entered from that same
site is suppressed and its code identity is added to `ignored_code_ids`. -/
theorem C10_capture_inserts_key (t : TracerState) (f : Frame)
    (hrec : (handleOpcode t f).2 ≠ []) :
    frame_to_key f ∈ (handleOpcode t f).1.recorded_calls
    ∧ (∀ g b, g.f_back = some b → frame_to_key b = frame_to_key f →
        ¬ walkHit (handleOpcode t f).1 g →
        tracerStep (handleOpcode t f).1 (.call g) =
          ⟨{ (handleOpcode t f).1 with
              recorded_calls :=
                ((handleOpcode t f).1.recorded_calls).erase (frame_to_key b),
              ignored_code_ids :=
                insert g.f_code_id (handleOpcode t f).1.ignored_code_ids },
            [], false⟩) := by
  have h1 : frame_to_key f ∈ (handleOpcode t f).1.recorded_calls := by
    rw [handleOpcode] at hrec ⊢
    exact runProcs_key_of_records _ _ _ hrec
  refine ⟨h1, ?_⟩
  intro g b hb hkeyeq hnw
  rw [tracerStep_call _ _ hnw, callEvent_captured _ _ _ hb (by rw [hkeyeq]; exact h1)]

theorem C10_capture_inserts_key_witness :
    frame_to_key frameAttr ∈ (handleOpcode t0 frameAttr).1.recorded_calls :=
  (C10_capture_inserts_key t0 frameAttr
    (by rw [show (handleOpcode t0 frameAttr).2
          = [⟨"builtins.getattr", [arr0, .prim (.str "shape")], []⟩] from rfl]
        simp)).1
